import Mathlib

/-!
Shallow embedding of the `personal-website-cdk` repository's domain-topology
logic (`lib/personal_website-stack.ts` and the `AddressRecords` construct).

The repository's stack file contains three successive versions of the
`PersonalWebsiteStack` class; we embed each one that the claims reference:
  * `buildV1` — the version whose props are `primaryDomainConfig` /
    `secondaryDomainConfigs` (per-subdomain record maps);
  * `buildV2` — the version whose props are `primaryDomain` / `domainConfigs`
    (a map from apex domain to `DomainRecords`);
  * `buildV3` — the single-domain version with the SES mail infrastructure,
    whose `AwsCustomResource` uses `Date.now()` as its physical resource id.

Stack construction is modelled as the emission of a list of `Resource`
specifications (one per CDK construct created in the stack's scope, in source
order).  The CDK `constructs` library aborts stack synthesis with an error as
soon as two constructs in the same scope share an id; `checkConstructIds`
models that platform behaviour, so a plan is only emitted when all construct
ids are distinct.

TTLs (`Duration`) are modelled as seconds (`Nat`).  Values generated by
external services (the SES Easy-DKIM tokens) are modelled as opaque
deterministic strings; their exact contents never feed a construct id.
-/

/-- A DNS MX record value (`aws_route53.MxRecordValue`): priority and mail host. -/
structure MxValue where
  priority : Nat
  hostName : String
deriving DecidableEq, Repr

/-- Record data for one MX record request: `Omit<MxRecordProps, 'zone'>`. -/
structure MxRecordData where
  recordName : Option String := none
  values : List MxValue
  ttl : Option Nat := none
deriving DecidableEq, Repr

/-- Record data for one CNAME record request: `Omit<CnameRecordProps, 'zone'>`. -/
structure CnameRecordData where
  recordName : Option String := none
  domainName : String
  ttl : Option Nat := none
deriving DecidableEq, Repr

/-- Record data for one TXT record request: `Omit<TxtRecordProps, 'zone'>`. -/
structure TxtRecordData where
  recordName : Option String := none
  values : List String
  ttl : Option Nat := none
deriving DecidableEq, Repr

/-- `DomainRecords` from the source: the optional record lists of one apex
domain.  A missing (`undefined`) list and an empty list behave identically in
the source (`records.MxRecords?.forEach`), so both are modelled as `[]`. -/
structure DomainRecords where
  MxRecords : List MxRecordData := []
  CnameRecords : List CnameRecordData := []
  TxtRecords : List TxtRecordData := []
deriving DecidableEq, Repr

/-- One resource specification emitted by the stack, tagged with the construct
id it was created under (stack scope).  Constructors mirror the CDK constructs
instantiated by the source; fields irrelevant to the domain-topology claims
(alarm thresholds, queue retention, IAM policy JSON, ...) are not carried. -/
inductive Resource where
  | hostedZone (id zoneName : String)
  | mxRecord (id zoneName : String) (recordName : Option String)
      (values : List MxValue) (ttl : Option Nat)
  | cnameRecord (id zoneName : String) (recordName : Option String)
      (domainName : String) (ttl : Option Nat)
  | txtRecord (id zoneName : String) (recordName : Option String)
      (values : List String) (ttl : Option Nat)
  | aRecord (id zoneName recordName target : String)
  | aaaaRecord (id zoneName recordName target : String)
  | bucket (id bucketName : String) (websiteRedirectHost : Option String)
  | certificate (id domainName : String) (subjectAlternativeNames : List String)
  | distribution (id comment : String) (domainNames : List String)
      (certificateId : String) (hasUrlRewrite : Bool) (originBucketId : String)
  | cfFunction (id : String)
  | alarm (id : String)
  | topic (id : String)
  | emailIdentity (id identity mailFromDomain : String)
  | configurationSet (id name : String)
  | eventDestination (id event : String)
  | queue (id name : String)
  | kmsKey (id : String)
  | mailArchive (id name : String)
  | customResource (id physicalResourceId : String)
  | iamUser (id userName : String)
  | accessKey (id : String)
  | secret (id name : String)
  | iamPolicy (id : String)
  | nsDelegation (id : String)
deriving DecidableEq, Repr

/-- The construct id of a resource. -/
def Resource.rid : Resource → String
  | .hostedZone i _ => i
  | .mxRecord i _ _ _ _ => i
  | .cnameRecord i _ _ _ _ => i
  | .txtRecord i _ _ _ _ => i
  | .aRecord i _ _ _ => i
  | .aaaaRecord i _ _ _ => i
  | .bucket i _ _ => i
  | .certificate i _ _ => i
  | .distribution i _ _ _ _ _ => i
  | .cfFunction i => i
  | .alarm i => i
  | .topic i => i
  | .emailIdentity i _ _ => i
  | .configurationSet i _ => i
  | .eventDestination i _ => i
  | .queue i _ => i
  | .kmsKey i => i
  | .mailArchive i _ => i
  | .customResource i _ => i
  | .iamUser i _ => i
  | .accessKey i => i
  | .secret i _ => i
  | .iamPolicy i => i
  | .nsDelegation i => i

/-- Is this resource a CloudFront distribution? -/
def Resource.isDistribution : Resource → Bool
  | .distribution _ _ _ _ _ _ => true
  | _ => false

/-- Is this resource an `AwsCustomResource`? -/
def Resource.isCustomResource : Resource → Bool
  | .customResource _ _ => true
  | _ => false

/-- Is this resource a Route53 `ARecord`? -/
def Resource.isARecord : Resource → Bool
  | .aRecord _ _ _ _ => true
  | _ => false

/-- The set of FQDNs one certificate resource must cover
(`domainName` plus `subjectAlternativeNames`); `[]` for non-certificates. -/
def Resource.coveredNames : Resource → List String
  | .certificate _ dn sans => dn :: sans
  | _ => []

/-- The certificate construct id a distribution is bound to. -/
def Resource.certificateIdOf : Resource → Option String
  | .distribution _ _ _ cid _ _ => some cid
  | _ => none

/-- `domainJoin(parts)` from the source:
`parts.filter(n => n).join('.')` — drops `undefined` and `''` (the falsy
values of type `string | undefined`) and joins the rest with `"."`. -/
def domainJoin (parts : List (Option String)) : String :=
  String.intercalate "." ((parts.filterMap (fun p => p)).filter (fun s => s ≠ ""))

/-- First id in the list that repeats an earlier one (the `constructs`
library raises its duplicate-id error at the first such construct). -/
def firstDupAux : List String → List String → Option String
  | _, [] => none
  | seen, x :: xs => if x ∈ seen then some x else firstDupAux (x :: seen) xs

/-- Error aborting stack synthesis: the `constructs` library throws
`There is already a Construct with name <id>` on a duplicate construct id. -/
inductive StackError where
  | duplicateConstructId (id : String)
deriving DecidableEq, Repr

/-- Platform behaviour of CDK synthesis: the emitted resources form a plan
only when all construct ids in the stack scope are distinct; otherwise
synthesis aborts at the first duplicate id and no plan is emitted. -/
def checkConstructIds (rs : List Resource) : Except StackError (List Resource) :=
  match firstDupAux [] (rs.map Resource.rid) with
  | some d => .error (.duplicateConstructId d)
  | none => .ok rs

/-! ### Version 2: `primaryDomain` / `domainConfigs` props -/

/-- `PersonalWebsiteStackProps` of the second stack version, plus the stack id
and region the constructor reads (`id.toLowerCase()`, `Stack.of(this).region`).
The TS `domainConfigs` object literal is an insertion-ordered map with
necessarily distinct keys; it is modelled as an association list. -/
structure PersonalWebsiteStackPropsV2 where
  stackId : String
  region : String
  websiteSubdomain : String
  homeSubdomain : String
  alarmEmail : String
  primaryDomain : String
  domainConfigs : List (String × DomainRecords)
deriving DecidableEq, Repr

/-- `websiteDomain = this.domainJoin([props.websiteSubdomain, props.primaryDomain])`. -/
def websiteDomainV2 (props : PersonalWebsiteStackPropsV2) : String :=
  domainJoin [some props.websiteSubdomain, some props.primaryDomain]

/-- `homeDomain = this.domainJoin([props.homeSubdomain, props.primaryDomain])`. -/
def homeDomainV2 (props : PersonalWebsiteStackPropsV2) : String :=
  domainJoin [some props.homeSubdomain, some props.primaryDomain]

/-- One requested MX record of an apex: construct id
`` `${this.domainJoin([recordProps.recordName, domain])}-mx` `` and props
`{ zone, ...recordProps }` (the record data is spread in unchanged). -/
def mxRecordResource (domain : String) (r : MxRecordData) : Resource :=
  .mxRecord (domainJoin [r.recordName, some domain] ++ "-mx") domain r.recordName r.values r.ttl

/-- One requested CNAME record of an apex (see `mxRecordResource`). -/
def cnameRecordResource (domain : String) (r : CnameRecordData) : Resource :=
  .cnameRecord (domainJoin [r.recordName, some domain] ++ "-cname") domain r.recordName r.domainName r.ttl

/-- One requested TXT record of an apex (see `mxRecordResource`). -/
def txtRecordResource (domain : String) (r : TxtRecordData) : Resource :=
  .txtRecord (domainJoin [r.recordName, some domain] ++ "-txt") domain r.recordName r.values r.ttl

/-- All explicitly requested DNS records of one apex, in source order
(MX, then CNAME, then TXT). -/
def explicitRecordResources (domain : String) (records : DomainRecords) : List Resource :=
  records.MxRecords.map (mxRecordResource domain)
    ++ records.CnameRecords.map (cnameRecordResource domain)
    ++ records.TxtRecords.map (txtRecordResource domain)

/-- The content distribution of `createWebHostingInfra`: serves exactly
`websiteDomain`, bound to the `` `${websiteDomain}-cert` `` certificate, with
the url-rewrite viewer function, origin the site bucket. -/
def contentDistribution (websiteDomain : String) : Resource :=
  .distribution (websiteDomain ++ "-dist") ("website hosting for " ++ websiteDomain)
    [websiteDomain] (websiteDomain ++ "-cert") true (websiteDomain ++ "-origin-bucket")

/-- The redirect distribution of `createDomainRedirectInfra`: serves the apex
plus its alternate names, bound to the `` `${domain}-cert` `` certificate,
origin the redirecting bucket. -/
def redirectDistribution (domain : String) (alternateNames : List String) : Resource :=
  .distribution (domain ++ "-dist") ("http/https redirection for " ++ domain)
    (domain :: alternateNames) (domain ++ "-cert") false (domain ++ "-redirect-bucket")

/-- The certificate of `createWebHostingInfra`: `domainName: websiteDomain`,
no subject alternative names. -/
def contentCertificate (websiteDomain : String) : Resource :=
  .certificate (websiteDomain ++ "-cert") websiteDomain []

/-- The certificate of `createDomainRedirectInfra`: `domainName: domain`,
`subjectAlternativeNames: alternateNames`. -/
def redirectCertificate (domain : String) (alternateNames : List String) : Resource :=
  .certificate (domain ++ "-cert") domain alternateNames

/-- `createWebHostingInfra(zone, websiteDomain, accessLogBucket)`: site bucket,
certificate with expiry alarm, url-rewrite function, content distribution, and
the direct alias record pointing `websiteDomain` at the distribution. -/
def createWebHostingInfra (zoneName websiteDomain : String) : List Resource :=
  [ .bucket (websiteDomain ++ "-origin-bucket") websiteDomain none,
    contentCertificate websiteDomain,
    .alarm (websiteDomain ++ "-cert Expiry Alarm"),
    .cfFunction "url-rewrite-fn",
    contentDistribution websiteDomain,
    .aRecord (websiteDomain ++ "-to-cf") zoneName websiteDomain (websiteDomain ++ "-dist") ]

/-- `createDomainRedirectInfra(zone, domain, targetDomain, accessLogBucket,
redirectingSubdomains)`: redirecting bucket (`websiteRedirect.hostName =
targetDomain`), certificate with expiry alarm, redirect distribution, alias
record for the apex, and one alias record per alternate name
(`this.domainJoin([subdomain, domain])`). -/
def createDomainRedirectInfra (zoneName domain targetDomain : String)
    (redirectingSubdomains : List String) : List Resource :=
  let alternateNames := redirectingSubdomains.map (fun subdomain => domainJoin [some subdomain, some domain])
  [ .bucket (domain ++ "-redirect-bucket") domain (some targetDomain),
    redirectCertificate domain alternateNames,
    .alarm (domain ++ "-cert Expiry Alarm"),
    redirectDistribution domain alternateNames,
    .aRecord (domain ++ "-to-cf") zoneName domain (domain ++ "-dist") ]
  ++ alternateNames.map (fun an => .aRecord (an ++ "-to-cf") zoneName an (domain ++ "-dist"))

/-- SES Easy-DKIM token record name for one of the three DKIM CNAMEs.
Modelled as an opaque deterministic string: the real value is generated by the
external SES service and never feeds a construct id. -/
def dkimTokenName (domain : String) (i : Nat) : String :=
  "dkim-token-" ++ toString i ++ "._domainkey." ++ domain

/-- SES Easy-DKIM token record value (see `dkimTokenName`). -/
def dkimTokenValue (_domain : String) (i : Nat) : String :=
  "dkim-token-" ++ toString i ++ ".dkim.amazonses.com"

/-- `createFromEmailInfra(zone, domain, dmarc_rua)` of the second stack
version: SES identity with `mailFromDomain` `` `mail.${domain}` ``, the three
DKIM CNAMEs, SPF and DMARC TXT records, and the SES feedback MX record. -/
def createFromEmailInfraV2 (region zoneName domain dmarcRua : String) : List Resource :=
  let fromDomain := domainJoin [some "mail", some domain]
  [ .emailIdentity ("Email-" ++ domain) domain fromDomain,
    .cnameRecord (domain ++ "-dkim1-cname") zoneName (some (dkimTokenName domain 1 ++ ".")) (dkimTokenValue domain 1) none,
    .cnameRecord (domain ++ "-dkim2-cname") zoneName (some (dkimTokenName domain 2 ++ ".")) (dkimTokenValue domain 2) none,
    .cnameRecord (domain ++ "-dkim3-cname") zoneName (some (dkimTokenName domain 3 ++ ".")) (dkimTokenValue domain 3) none,
    .txtRecord (fromDomain ++ "-spf") zoneName (some (fromDomain ++ "."))
      ["v=spf1 include:amazonses.com ~all"] none,
    .txtRecord (domain ++ "-dmarc") zoneName (some ("_dmarc." ++ domain ++ "."))
      ["v=DMARC1;p=quarantine;rua=" ++ dmarcRua] none,
    .mxRecord (domain ++ "-mx") zoneName (some (fromDomain ++ "."))
      [⟨10, "feedback-smtp." ++ region ++ ".amazonses.com"⟩] none ]

/-- Resources created before the per-domain loop of the second version's
constructor: access-log bucket, alarm topic, and the four SES account alarms. -/
def globalsV2 (props : PersonalWebsiteStackPropsV2) : List Resource :=
  [ .bucket "access-logs-bucket" (props.stackId.toLower ++ "-access-logs") none,
    .topic "AlarmTopic",
    .alarm "SES Sends Alarm",
    .alarm "SES Rejects Alarm",
    .alarm "SES Bounce Rate Alarm",
    .alarm "SES Complaint Rate Alarm" ]

/-- The alternate names of the redirect distribution of one apex: none for
the primary apex, and `this.domainJoin([websiteSubdomain, domain])` for a
secondary apex (the two `createDomainRedirectInfra` call sites). -/
def alternateNamesV2 (props : PersonalWebsiteStackPropsV2) (domain : String) : List String :=
  if domain = props.primaryDomain then []
  else [domainJoin [some props.websiteSubdomain, some domain]]

/-- Resources of one `domainConfigs` entry: the hosted zone, the requested
records, then — for the primary apex — web hosting, apex redirection and the
home-domain mail infrastructure, or — for a secondary apex — redirection of
the apex and its website subdomain to the primary website domain. -/
def entryResourcesV2 (props : PersonalWebsiteStackPropsV2)
    (domain : String) (records : DomainRecords) : List Resource :=
  Resource.hostedZone domain domain
    :: explicitRecordResources domain records
    ++ (if domain = props.primaryDomain then
          createWebHostingInfra domain (websiteDomainV2 props)
          ++ createDomainRedirectInfra domain domain (websiteDomainV2 props) []
          ++ createFromEmailInfraV2 props.region domain (homeDomainV2 props)
              ("mailto:postmaster@" ++ props.primaryDomain)
        else
          createDomainRedirectInfra domain domain (websiteDomainV2 props) [props.websiteSubdomain])

/-- The second version's constructor body: the resources it creates, in source
order. -/
def buildV2 (props : PersonalWebsiteStackPropsV2) : List Resource :=
  globalsV2 props
    ++ props.domainConfigs.flatMap (fun entry => entryResourcesV2 props entry.1 entry.2)

/-- Stack synthesis for the second version: emits the plan unless a duplicate
construct id aborts it. -/
def buildV2Checked (props : PersonalWebsiteStackPropsV2) : Except StackError (List Resource) :=
  checkConstructIds (buildV2 props)

/-! ### Version 1: `primaryDomainConfig` / `secondaryDomainConfigs` props -/

/-- Per-subdomain record data of the first stack version:
`Omit<MxRecordProps, 'zone' | 'recordName'>`. -/
structure MxData where
  values : List MxValue
  ttl : Option Nat := none
deriving DecidableEq, Repr

/-- `Omit<CnameRecordProps, 'zone' | 'recordName'>`. -/
structure CnameData where
  domainName : String
  ttl : Option Nat := none
deriving DecidableEq, Repr

/-- `Omit<TxtRecordProps, 'zone' | 'recordName'>`. -/
structure TxtData where
  values : List String
  ttl : Option Nat := none
deriving DecidableEq, Repr

/-- `DomainConfig` of the first stack version: an apex domain with its
subdomain-keyed record maps (TS object literals, modelled as association
lists in insertion order). -/
structure DomainConfig where
  domain : String
  subdomainMxRecords : List (String × MxData) := []
  subdomainCnameRecords : List (String × CnameData) := []
  subdomainTxtRecords : List (String × TxtData) := []
deriving DecidableEq, Repr

/-- `PersonalWebsiteStackProps` of the first stack version, plus the stack id
read by the constructor. -/
structure PersonalWebsiteStackPropsV1 where
  stackId : String
  websiteSubdomain : String
  homeSubdomain : String
  primaryDomainConfig : DomainConfig
  secondaryDomainConfigs : List DomainConfig
deriving DecidableEq, Repr

/-- The domain configs in processing order:
`[props.primaryDomainConfig, ...props.secondaryDomainConfigs]`. -/
def domainConfigsV1 (props : PersonalWebsiteStackPropsV1) : List DomainConfig :=
  props.primaryDomainConfig :: props.secondaryDomainConfigs

/-- The apex domains of a first-version configuration, in order. -/
def apexDomainsV1 (props : PersonalWebsiteStackPropsV1) : List String :=
  (domainConfigsV1 props).map (fun c => c.domain)

/-- `getRecordName(subdomain)` of the first version:
`` subdomain ? `${subdomain}.${config.domain}` : config.domain ``. -/
def getRecordName (domain subdomain : String) : String :=
  if subdomain = "" then domain else subdomain ++ "." ++ domain

/-- Construct id of a first-version record:
`` `${recordProps.recordName || apexDomain}-<kind>` ``. -/
def v1RecordId (domain recordName suffix : String) : String :=
  (if recordName = "" then domain else recordName) ++ suffix

/-- DNS records requested by one first-version `DomainConfig`, in source order
(MX, CNAME, TXT); each record's name is `getRecordName(subdomain)` and the
record data is spread in unchanged. -/
def v1RecordResources (c : DomainConfig) : List Resource :=
  c.subdomainMxRecords.map (fun sr =>
    .mxRecord (v1RecordId c.domain (getRecordName c.domain sr.1) "-mx") c.domain
      (some (getRecordName c.domain sr.1)) sr.2.values sr.2.ttl)
  ++ c.subdomainCnameRecords.map (fun sr =>
    .cnameRecord (v1RecordId c.domain (getRecordName c.domain sr.1) "-cname") c.domain
      (some (getRecordName c.domain sr.1)) sr.2.domainName sr.2.ttl)
  ++ c.subdomainTxtRecords.map (fun sr =>
    .txtRecord (v1RecordId c.domain (getRecordName c.domain sr.1) "-txt") c.domain
      (some (getRecordName c.domain sr.1)) sr.2.values sr.2.ttl)

/-- `createWebHostingInfra(websiteDomain, zone, accessLogBucket)` of the first
version (no certificate expiry alarm yet). -/
def createWebHostingInfraV1 (websiteDomain zoneName : String) : List Resource :=
  [ .bucket (websiteDomain ++ "-origin-bucket") websiteDomain none,
    contentCertificate websiteDomain,
    .cfFunction "url-rewrite-fn",
    contentDistribution websiteDomain,
    .aRecord (websiteDomain ++ "-to-cf") zoneName websiteDomain (websiteDomain ++ "-dist") ]

/-- `createDomainRedirectInfra(apexDomain, redirectingSubdomains, targetDomain,
zone, accessLogBucket)` of the first version; alternate names are
`` `${subdomain}.${apexDomain}` ``. -/
def createDomainRedirectInfraV1 (apexDomain : String) (redirectingSubdomains : List String)
    (targetDomain zoneName : String) : List Resource :=
  let alternateNames := redirectingSubdomains.map (fun subdomain => subdomain ++ "." ++ apexDomain)
  [ .bucket (apexDomain ++ "-redirect-bucket") apexDomain (some targetDomain),
    redirectCertificate apexDomain alternateNames,
    redirectDistribution apexDomain alternateNames,
    .aRecord (apexDomain ++ "-to-cf") zoneName apexDomain (apexDomain ++ "-dist") ]
  ++ alternateNames.map (fun an => .aRecord (an ++ "-to-cf") zoneName an (apexDomain ++ "-dist"))

/-- Resources created by the first version's constructor after the hosted
zones: the requested DNS records, the two SES identities, the access-log
bucket, web hosting for `` `${websiteSubdomain}.${primaryDomain}` ``, and
per-apex redirection (the primary apex gets no website-subdomain alternate
name). -/
def buildV1Rest (props : PersonalWebsiteStackPropsV1) : List Resource :=
  let primaryDomain := props.primaryDomainConfig.domain
  let websiteDomain := props.websiteSubdomain ++ "." ++ primaryDomain
  let homeDomain := props.homeSubdomain ++ "." ++ primaryDomain
  (domainConfigsV1 props).flatMap v1RecordResources
  ++ [ .emailIdentity ("Identity-" ++ homeDomain) primaryDomain homeDomain,
       .emailIdentity "Identity-chris@chriswlucas.com" "chris@chriswlucas.com" "",
       .bucket "access-logs-bucket" (props.stackId.toLower ++ "-access-logs") none ]
  ++ createWebHostingInfraV1 websiteDomain primaryDomain
  ++ (domainConfigsV1 props).flatMap (fun c =>
        createDomainRedirectInfraV1 c.domain
          (if c.domain ≠ primaryDomain then [props.websiteSubdomain] else [])
          websiteDomain c.domain)

/-- The first version's constructor body, in source order: all hosted zones
are created first (while `domainConfigMap` is built), then everything else. -/
def buildV1 (props : PersonalWebsiteStackPropsV1) : List Resource :=
  (domainConfigsV1 props).map (fun c => Resource.hostedZone c.domain c.domain)
    ++ buildV1Rest props

/-- Stack synthesis for the first version. -/
def buildV1Checked (props : PersonalWebsiteStackPropsV1) : Except StackError (List Resource) :=
  checkConstructIds (buildV1 props)

/-! ### Version 3: single apex domain, SES mail infrastructure -/

/-- `PersonalWebsiteStackProps` of the third stack version, plus the stack id
and region the constructor reads. -/
structure PersonalWebsiteStackPropsV3 where
  stackId : String
  region : String
  homeSubdomain : String
  alarmEmail : String
  postmasterEmail : String
  domain : String
  records : DomainRecords
deriving DecidableEq, Repr

/-- `websiteDomain = this.domainJoin(['www', props.domain])`. -/
def websiteDomainV3 (props : PersonalWebsiteStackPropsV3) : String :=
  domainJoin [some "www", some props.domain]

/-- `homeDomain = this.domainJoin([props.homeSubdomain, props.domain])`. -/
def homeDomainV3 (props : PersonalWebsiteStackPropsV3) : String :=
  domainJoin [some props.homeSubdomain, some props.domain]

/-- `zoneName.replace(new RegExp(/\./g), '')`: the zone name with every
period removed. -/
def removeDots (s : String) : String :=
  String.mk (s.data.filter (fun c => c ≠ '.'))

/-- `createSesSqsDestination(props)`: SNS topic, SES event destination, SQS
queue, and (unless disabled) an alarm on visible messages. -/
def createSesSqsDestination (name event : String) (alarm : Bool) : List Resource :=
  [ .topic (name ++ "-mail-" ++ event ++ "-destination-topic"),
    .eventDestination (name ++ "-mail-" ++ event ++ "-destination") event,
    .queue (name ++ "-mail-" ++ event ++ "-destination-queue")
      (name ++ "-mail-" ++ event ++ "-destination-queue") ]
  ++ (if alarm then [Resource.alarm (name ++ "-mail-" ++ event ++ "-alarm")] else [])

/-- `createFromEmailInfra(zone, dmarcRua)` of the third stack version.  The
`AwsCustomResource` attaching the mail archive to the configuration set uses
`Date.now().toString()` as its physical resource id, so the emitted plan
depends on the clock value `now` at construction time. -/
def createFromEmailInfraV3 (zoneName dmarcRua : String) (now : Nat) : List Resource :=
  let fromDomain := domainJoin [some "mail", some zoneName]
  let zoneNameWithoutPeriods := removeDots zoneName
  [ .configurationSet (zoneName ++ "-default-configuration-set")
      (zoneNameWithoutPeriods ++ "-default-configuration-set"),
    .emailIdentity ("Email-" ++ zoneName) zoneName fromDomain,
    .txtRecord ("Email-" ++ zoneName ++ "-DmarcTxtRecord") zoneName (some "_dmarc")
      ["v=DMARC1;p=reject;rua=" ++ dmarcRua] none ]
  ++ createSesSqsDestination zoneNameWithoutPeriods "reject" true
  ++ createSesSqsDestination zoneNameWithoutPeriods "bounce" true
  ++ createSesSqsDestination zoneNameWithoutPeriods "renderingFailure" true
  ++ createSesSqsDestination zoneNameWithoutPeriods "complaint" true
  ++ createSesSqsDestination zoneNameWithoutPeriods "deliveryDelay" false
  ++ [ .kmsKey (zoneName ++ "-mail-archive-key"),
       .mailArchive (zoneName ++ "-mail-archive-2") (zoneNameWithoutPeriods ++ "-mail-archive-2"),
       .customResource (zoneName ++ "-mail-archive-attachment") (toString now) ]

/-- `dnsManagementIamUser(userName, zones)`: IAM user, access key, secret
holding the key, and the route53 management policy. -/
def dnsManagementIamUser (userName : String) : List Resource :=
  [ .iamUser ("iam-user-" ++ userName) userName,
    .accessKey ("iam-user-" ++ userName ++ "-access-key"),
    .secret ("iam-user-" ++ userName ++ "-access-key-secret")
      ("iam-user-" ++ userName ++ "-access-key"),
    .iamPolicy (userName ++ "-dns-management-policy") ]

/-- The third version's constructor body, in source order.  `now` is the
clock value read by `Date.now()` inside `createFromEmailInfra`. -/
def buildV3 (props : PersonalWebsiteStackPropsV3) (now : Nat) : List Resource :=
  let websiteDomain := websiteDomainV3 props
  let homeDomain := homeDomainV3 props
  [ .bucket "access-logs-bucket" (props.stackId.toLower ++ "-access-logs") none,
    .topic "AlarmTopic",
    .alarm "SES Sends Alarm",
    .alarm "SES Rejects Alarm",
    .alarm "SES Bounce Rate Alarm",
    .alarm "SES Complaint Rate Alarm",
    .hostedZone props.domain props.domain ]
  ++ explicitRecordResources props.domain props.records
  ++ createWebHostingInfra props.domain websiteDomain
  ++ createDomainRedirectInfra props.domain props.domain websiteDomain []
  ++ [ .hostedZone homeDomain homeDomain,
       .nsDelegation (homeDomain ++ "-delegation") ]
  ++ createFromEmailInfraV3 homeDomain ("mailto:" ++ props.postmasterEmail) now
  ++ dnsManagementIamUser (homeDomain ++ "-dns-management")

/-! ### The `AddressRecords` construct -/

/-- `ipVersion` values of `AddressRecordsProps`. -/
inductive IpVersion where
  | ipv4Only
  | ipv6Only
  | dualStack
deriving DecidableEq, Repr

/-- `AddressRecordsProps`: zone, domain name, record target, and optional IP
version configuration (default `'dual-stack'`). -/
structure AddressRecordsProps where
  zone : String
  domainName : String
  target : String
  ipVersion : Option IpVersion := none
deriving DecidableEq, Repr

/-- The `AddressRecords` construct body: `ipVersion = props.ipVersion ?? 'dual-stack'`;
an A record (child id `a`) unless ipv6-only, an AAAA record (child id `aaaa`)
unless ipv4-only; every record uses the given zone, domain name and target. -/
def addressRecords (props : AddressRecordsProps) : List Resource :=
  let ipVersion := props.ipVersion.getD IpVersion.dualStack
  (if ipVersion = IpVersion.dualStack ∨ ipVersion = IpVersion.ipv4Only then
    [Resource.aRecord "a" props.zone props.domainName props.target]
  else [])
  ++ (if ipVersion = IpVersion.dualStack ∨ ipVersion = IpVersion.ipv6Only then
    [Resource.aaaaRecord "aaaa" props.zone props.domainName props.target]
  else [])

/-! ### Concrete configurations from `bin/personal_website.ts` -/

/-- The iCloud MX values used across the deployment configurations. -/
def iCloudMxValues : List MxValue :=
  [⟨10, "mx01.mail.icloud.com."⟩, ⟨10, "mx02.mail.icloud.com."⟩]

/-- The `chriswlucas.com` record set of the deployed configuration. -/
def prodPrimaryRecords : DomainRecords where
  MxRecords := [{ values := iCloudMxValues, ttl := some 86400 }]
  CnameRecords := [{ recordName := some "sig1._domainkey",
                     domainName := "sig1.dkim.chriswlucas.com.at.icloudmailadmin.com.",
                     ttl := some 86400 }]
  TxtRecords := [{ values :=
                     [ "v=spf1 include:icloud.com ~all",
                       "apple-domain=DdleKqlDev7mc5xo",
                       "keybase-site-verification=74xSzNnFzF37JGsYtlTgQ5ip70dKbUvAQLpHnaxiEp4",
                       "google-site-verification=-y6CXohbao4xigEBlFXanLydR90TZ1mO5gFMBzVtBsY" ],
                   ttl := some 3600 }]

/-- The deployed second-version configuration (`bin/personal_website.ts`):
primary `chriswlucas.com`, secondaries `chriswlucas.org` and `chriswlucas.net`. -/
def prodProps : PersonalWebsiteStackPropsV2 where
  stackId := "PersonalWebsiteStack"
  region := "us-east-1"
  websiteSubdomain := "www"
  homeSubdomain := "home"
  alarmEmail := "alarm@chriswlucas.com"
  primaryDomain := "chriswlucas.com"
  domainConfigs :=
    [ ("chriswlucas.com", prodPrimaryRecords),
      ("chriswlucas.org", { TxtRecords := [{ values := ["google-site-verification=eum67Zs46nv_NLwhZ0PV6aPdTIoJIv2cjnrd3t6VO5o"], ttl := some 3600 }] }),
      ("chriswlucas.net", { TxtRecords := [{ values := ["google-site-verification=oenFzY8fj0pDqA1DebjDT38z49YkQjccTzaXAXtN1A8"], ttl := some 3600 }] }) ]

/-- A configuration that defines an MX record at subdomain `www` on the
primary apex — the reserved website subdomain. -/
def reservedMxProps : PersonalWebsiteStackPropsV2 where
  stackId := "PersonalWebsiteStack"
  region := "us-east-1"
  websiteSubdomain := "www"
  homeSubdomain := "home"
  alarmEmail := "alarm@chriswlucas.com"
  primaryDomain := "chriswlucas.com"
  domainConfigs :=
    [ ("chriswlucas.com",
        { MxRecords := [{ recordName := some "www", values := iCloudMxValues, ttl := some 86400 }] }) ]

/-- A second-version configuration with zero secondary domains. -/
def singleDomainProps : PersonalWebsiteStackPropsV2 where
  stackId := "PersonalWebsiteStack"
  region := "us-east-1"
  websiteSubdomain := "www"
  homeSubdomain := "home"
  alarmEmail := "alarm@chriswlucas.com"
  primaryDomain := "chriswlucas.com"
  domainConfigs := [("chriswlucas.com", prodPrimaryRecords)]

/-- A first-version configuration in which the apex `chriswlucas.com` is
listed twice (once as primary, once among the secondaries). -/
def duplicateDomainProps : PersonalWebsiteStackPropsV1 where
  stackId := "PersonalWebsiteStack"
  websiteSubdomain := "www"
  homeSubdomain := "home"
  primaryDomainConfig := { domain := "chriswlucas.com" }
  secondaryDomainConfigs := [{ domain := "chriswlucas.org" }, { domain := "chriswlucas.com" }]

/-- The deployed third-version configuration. -/
def prodPropsV3 : PersonalWebsiteStackPropsV3 where
  stackId := "PersonalWebsiteStack"
  region := "us-east-1"
  homeSubdomain := "home"
  alarmEmail := "alarm@chriswlucas.com"
  postmasterEmail := "postmaster@chriswlucas.com"
  domain := "chriswlucas.com"
  records := prodPrimaryRecords


/-! ### Lemmas about the duplicate-construct-id check -/

theorem firstDupAux_eq_none_iff (l : List String) : ∀ seen,
    firstDupAux seen l = none ↔ l.Nodup ∧ ∀ x ∈ l, x ∉ seen := by
  induction l with
  | nil => intro seen; simp [firstDupAux]
  | cons x xs ih =>
    intro seen
    by_cases hx : x ∈ seen
    · rw [firstDupAux, if_pos hx]
      constructor
      · intro h; cases h
      · rintro ⟨-, hall⟩
        exact absurd hx (hall x (List.mem_cons_self x xs))
    · rw [firstDupAux, if_neg hx, ih]
      simp only [List.nodup_cons, List.mem_cons, not_or]
      constructor
      · rintro ⟨hnd, hall⟩
        refine ⟨⟨fun hxx => (hall x hxx).1 rfl, hnd⟩, ?_⟩
        intro y hy
        rcases hy with rfl | hy
        · exact hx
        · exact (hall y hy).2
      · rintro ⟨⟨hxxs, hnd⟩, hall⟩
        refine ⟨hnd, fun y hy => ⟨?_, hall y (Or.inr hy)⟩⟩
        rintro rfl
        exact hxxs hy

theorem firstDupAux_append_of_some (l r : List String) : ∀ (seen : List String) (d : String),
    firstDupAux seen l = some d → firstDupAux seen (l ++ r) = some d := by
  induction l with
  | nil => intro seen d h; cases h
  | cons x xs ih =>
    intro seen d h
    rw [firstDupAux] at h
    rw [List.cons_append, firstDupAux]
    by_cases hx : x ∈ seen
    · rw [if_pos hx] at h ⊢; exact h
    · rw [if_neg hx] at h ⊢; exact ih _ _ h

theorem firstDupAux_some_count (l : List String) : ∀ (seen : List String) (d : String),
    firstDupAux seen l = some d → (d ∈ seen ∧ d ∈ l) ∨ 2 ≤ l.count d := by
  induction l with
  | nil => intro seen d h; cases h
  | cons x xs ih =>
    intro seen d h
    rw [firstDupAux] at h
    by_cases hx : x ∈ seen
    · rw [if_pos hx] at h
      injection h with h
      subst h
      exact Or.inl ⟨hx, List.mem_cons_self x xs⟩
    · rw [if_neg hx] at h
      rcases ih _ _ h with ⟨hseen, hmem⟩ | hcount
      · rcases List.mem_cons.mp hseen with rfl | hseen'
        · right
          rw [List.count_cons_self]
          have : 1 ≤ xs.count d := List.count_pos_iff.mpr hmem
          omega
        · exact Or.inl ⟨hseen', List.mem_cons_of_mem x hmem⟩
      · right
        rcases eq_or_ne x d with rfl | hne
        · rw [List.count_cons_self]; omega
        · rwa [List.count_cons_of_ne (Ne.symm hne)]

theorem checkConstructIds_ok_iff (rs plan : List Resource) :
    checkConstructIds rs = .ok plan ↔ plan = rs ∧ (rs.map Resource.rid).Nodup := by
  constructor
  · intro h
    unfold checkConstructIds at h
    cases hfd : firstDupAux [] (rs.map Resource.rid) with
    | some d => rw [hfd] at h; cases h
    | none =>
      rw [hfd] at h
      injection h with h
      exact ⟨h.symm, ((firstDupAux_eq_none_iff _ _).mp hfd).1⟩
  · rintro ⟨rfl, hnd⟩
    unfold checkConstructIds
    rw [(firstDupAux_eq_none_iff _ _).mpr ⟨hnd, by simp⟩]

/-- A successful second-version synthesis yields exactly the constructor's
resource list, with all construct ids distinct. -/
theorem buildV2Checked_ok {props : PersonalWebsiteStackPropsV2} {plan : List Resource}
    (h : buildV2Checked props = .ok plan) :
    plan = buildV2 props ∧ ((buildV2 props).map Resource.rid).Nodup :=
  (checkConstructIds_ok_iff _ _).mp h

/-- Construct-id distinctness makes the id an injective key on the plan. -/
theorem rid_inj_of_nodup {rs : List Resource} (hnd : (rs.map Resource.rid).Nodup) :
    ∀ r ∈ rs, ∀ r' ∈ rs, r.rid = r'.rid → r = r' :=
  fun _ hr _ hr' heq => List.inj_on_of_nodup_map hnd hr hr' heq

/-! ### Membership lemmas for the second version -/

theorem mem_buildV2_of_mem_entry {props : PersonalWebsiteStackPropsV2} {d : String}
    {recs : DomainRecords} {r : Resource} (hd : (d, recs) ∈ props.domainConfigs)
    (hr : r ∈ entryResourcesV2 props d recs) : r ∈ buildV2 props := by
  unfold buildV2
  exact List.mem_append_right _ (List.mem_flatMap.mpr ⟨(d, recs), hd, hr⟩)

theorem mem_entry_of_hosting {props : PersonalWebsiteStackPropsV2} {d : String}
    {recs : DomainRecords} {r : Resource} (hd : d = props.primaryDomain)
    (hr : r ∈ createWebHostingInfra d (websiteDomainV2 props)) :
    r ∈ entryResourcesV2 props d recs := by
  unfold entryResourcesV2
  rw [if_pos hd]
  simp only [List.mem_cons, List.mem_append]
  tauto

theorem mem_entry_of_redirect {props : PersonalWebsiteStackPropsV2} {d : String}
    {recs : DomainRecords} {r : Resource}
    (hr : r ∈ createDomainRedirectInfra d d (websiteDomainV2 props)
            (if d = props.primaryDomain then [] else [props.websiteSubdomain])) :
    r ∈ entryResourcesV2 props d recs := by
  unfold entryResourcesV2
  by_cases hd : d = props.primaryDomain
  · rw [if_pos hd]
    rw [if_pos hd] at hr
    simp only [List.mem_cons, List.mem_append]
    tauto
  · rw [if_neg hd]
    rw [if_neg hd] at hr
    simp only [List.mem_cons, List.mem_append]
    tauto

theorem mem_entry_of_records {props : PersonalWebsiteStackPropsV2} {d : String}
    {recs : DomainRecords} {r : Resource}
    (hr : r ∈ explicitRecordResources d recs) :
    r ∈ entryResourcesV2 props d recs := by
  unfold entryResourcesV2
  simp only [List.mem_cons, List.mem_append]
  tauto

/-! ### Shape lemmas: which certificates, distributions and alias records
the second version can emit -/

/-! ### Shape lemmas: which certificates, distributions and alias records
the second version can emit -/

theorem cert_mem_buildV2 {props : PersonalWebsiteStackPropsV2} {i dn : String}
    {sans : List String} (h : Resource.certificate i dn sans ∈ buildV2 props) :
    ((∃ precs, (props.primaryDomain, precs) ∈ props.domainConfigs) ∧
      i = websiteDomainV2 props ++ "-cert" ∧ dn = websiteDomainV2 props ∧ sans = [])
    ∨ (∃ recs, (dn, recs) ∈ props.domainConfigs ∧ i = dn ++ "-cert" ∧
        sans = alternateNamesV2 props dn) := by
  unfold buildV2 globalsV2 at h
  rw [List.mem_append] at h
  rcases h with h | h
  · simp at h
  · rw [List.mem_flatMap] at h
    obtain ⟨⟨d, recs⟩, hentry, hmem⟩ := h
    unfold entryResourcesV2 at hmem
    by_cases hd : d = props.primaryDomain
    · rw [if_pos hd] at hmem
      simp [explicitRecordResources, createWebHostingInfra, createDomainRedirectInfra,
        createFromEmailInfraV2, contentCertificate, redirectCertificate, contentDistribution,
        redirectDistribution, mxRecordResource, cnameRecordResource, txtRecordResource] at hmem
      rcases hmem with hmem | ⟨hi, hdn, hsans⟩
      · exact Or.inl ⟨⟨recs, hd ▸ hentry⟩, hmem⟩
      · subst hdn
        refine Or.inr ⟨recs, hentry, hi, ?_⟩
        rw [alternateNamesV2, if_pos hd]
        exact hsans
    · rw [if_neg hd] at hmem
      simp [explicitRecordResources, createDomainRedirectInfra,
        contentCertificate, redirectCertificate, contentDistribution,
        redirectDistribution, mxRecordResource, cnameRecordResource, txtRecordResource] at hmem
      obtain ⟨hi, hdn, hsans⟩ := hmem
      subst hdn
      refine Or.inr ⟨recs, hentry, hi, ?_⟩
      rw [alternateNamesV2, if_neg hd]
      exact hsans

theorem dist_mem_buildV2 {props : PersonalWebsiteStackPropsV2} {i c cid ob : String}
    {dns : List String} {fn : Bool}
    (h : Resource.distribution i c dns cid fn ob ∈ buildV2 props) :
    ((∃ precs, (props.primaryDomain, precs) ∈ props.domainConfigs) ∧
      i = websiteDomainV2 props ++ "-dist" ∧
      c = "website hosting for " ++ websiteDomainV2 props ∧
      dns = [websiteDomainV2 props] ∧ cid = websiteDomainV2 props ++ "-cert" ∧
      fn = true ∧ ob = websiteDomainV2 props ++ "-origin-bucket")
    ∨ (∃ d recs, (d, recs) ∈ props.domainConfigs ∧ i = d ++ "-dist" ∧
      c = "http/https redirection for " ++ d ∧ dns = d :: alternateNamesV2 props d ∧
      cid = d ++ "-cert" ∧ fn = false ∧ ob = d ++ "-redirect-bucket") := by
  unfold buildV2 globalsV2 at h
  rw [List.mem_append] at h
  rcases h with h | h
  · simp at h
  · rw [List.mem_flatMap] at h
    obtain ⟨⟨d, recs⟩, hentry, hmem⟩ := h
    unfold entryResourcesV2 at hmem
    by_cases hd : d = props.primaryDomain
    · rw [if_pos hd] at hmem
      simp [explicitRecordResources, createWebHostingInfra, createDomainRedirectInfra,
        createFromEmailInfraV2, mxRecordResource, cnameRecordResource, txtRecordResource,
        contentDistribution, redirectDistribution, contentCertificate, redirectCertificate] at hmem
      rcases hmem with hmem | ⟨h1, h2, h3, h4, h5, h6⟩
      · exact Or.inl ⟨⟨recs, hd ▸ hentry⟩, hmem⟩
      · refine Or.inr ⟨d, recs, hentry, h1, h2, ?_, h4, h5, h6⟩
        rw [alternateNamesV2, if_pos hd]
        exact h3
    · rw [if_neg hd] at hmem
      simp [explicitRecordResources, createDomainRedirectInfra,
        mxRecordResource, cnameRecordResource, txtRecordResource,
        contentDistribution, redirectDistribution, contentCertificate, redirectCertificate] at hmem
      obtain ⟨h1, h2, h3, h4, h5, h6⟩ := hmem
      refine Or.inr ⟨d, recs, hentry, h1, h2, ?_, h4, h5, h6⟩
      rw [alternateNamesV2, if_neg hd]
      exact h3

theorem aRecord_mem_buildV2 {props : PersonalWebsiteStackPropsV2} {i z n t : String}
    (h : Resource.aRecord i z n t ∈ buildV2 props) :
    ((∃ precs, (props.primaryDomain, precs) ∈ props.domainConfigs) ∧
      i = websiteDomainV2 props ++ "-to-cf" ∧ z = props.primaryDomain ∧
      n = websiteDomainV2 props ∧ t = websiteDomainV2 props ++ "-dist")
    ∨ (∃ recs, (n, recs) ∈ props.domainConfigs ∧ i = n ++ "-to-cf" ∧ z = n ∧ t = n ++ "-dist")
    ∨ (∃ d recs, (d, recs) ∈ props.domainConfigs ∧ d ≠ props.primaryDomain ∧
        n = domainJoin [some props.websiteSubdomain, some d] ∧
        i = n ++ "-to-cf" ∧ z = d ∧ t = d ++ "-dist") := by
  unfold buildV2 globalsV2 at h
  rw [List.mem_append] at h
  rcases h with h | h
  · simp at h
  · rw [List.mem_flatMap] at h
    obtain ⟨⟨d, recs⟩, hentry, hmem⟩ := h
    unfold entryResourcesV2 at hmem
    by_cases hd : d = props.primaryDomain
    · rw [if_pos hd] at hmem
      simp [explicitRecordResources, createWebHostingInfra, createDomainRedirectInfra,
        createFromEmailInfraV2, mxRecordResource, cnameRecordResource, txtRecordResource,
        contentDistribution, redirectDistribution, contentCertificate, redirectCertificate] at hmem
      rcases hmem with ⟨hi, hz, hn, ht⟩ | ⟨hi, hz, hn, ht⟩
      · subst hz
        exact Or.inl ⟨⟨recs, hd ▸ hentry⟩, hi, hd, hn, ht⟩
      · subst hn
        subst hz
        exact Or.inr (Or.inl ⟨recs, hentry, hi, rfl, ht⟩)
    · rw [if_neg hd] at hmem
      simp [explicitRecordResources, createDomainRedirectInfra,
        mxRecordResource, cnameRecordResource, txtRecordResource,
        contentDistribution, redirectDistribution, contentCertificate, redirectCertificate] at hmem
      rcases hmem with ⟨hi, hz, hn, ht⟩ | ⟨hi, hz, hn, ht⟩
      · subst hn
        subst hz
        exact Or.inr (Or.inl ⟨recs, hentry, hi, rfl, ht⟩)
      · subst hn
        subst hz
        exact Or.inr (Or.inr ⟨z, recs, hentry, hd, rfl, hi, rfl, ht⟩)

/-! ### Lemmas about `domainJoin` -/

theorem domainJoin_none_cons (l : List (Option String)) :
    domainJoin (none :: l) = domainJoin l := by
  simp [domainJoin]

theorem domainJoin_some_empty_cons (l : List (Option String)) :
    domainJoin (some "" :: l) = domainJoin l := by
  simp [domainJoin]

theorem domainJoin_pair {s d : String} (hs : s ≠ "") (hd : d ≠ "") :
    domainJoin [some s, some d] = s ++ "." ++ d := by
  simp only [domainJoin, List.filterMap, Option.bind]
  rw [List.filter_cons, List.filter_cons]
  simp [hs, hd]
  rfl

theorem domainJoin_empty_left (d : String) : domainJoin [some "", some d] = d := by
  by_cases hd : d = ""
  · simp [domainJoin, hd]
    rfl
  · simp only [domainJoin, List.filterMap, Option.bind]
    rw [List.filter_cons, List.filter_cons]
    simp [hd]
    rfl

/-! ### Concrete resources the second version emits -/

theorem hosting_resources_mem {props : PersonalWebsiteStackPropsV2} {precs : DomainRecords}
    (hp : (props.primaryDomain, precs) ∈ props.domainConfigs) :
    contentDistribution (websiteDomainV2 props) ∈ buildV2 props ∧
    contentCertificate (websiteDomainV2 props) ∈ buildV2 props ∧
    Resource.aRecord (websiteDomainV2 props ++ "-to-cf") props.primaryDomain
      (websiteDomainV2 props) (websiteDomainV2 props ++ "-dist") ∈ buildV2 props := by
  refine ⟨?_, ?_, ?_⟩ <;>
  · apply mem_buildV2_of_mem_entry hp
    apply mem_entry_of_hosting rfl
    simp [createWebHostingInfra]

theorem redirect_resources_mem {props : PersonalWebsiteStackPropsV2} {d : String}
    {recs : DomainRecords} (hd : (d, recs) ∈ props.domainConfigs) :
    redirectDistribution d (alternateNamesV2 props d) ∈ buildV2 props ∧
    redirectCertificate d (alternateNamesV2 props d) ∈ buildV2 props ∧
    Resource.bucket (d ++ "-redirect-bucket") d (some (websiteDomainV2 props)) ∈ buildV2 props ∧
    Resource.aRecord (d ++ "-to-cf") d d (d ++ "-dist") ∈ buildV2 props := by
  have key : ∀ r ∈ createDomainRedirectInfra d d (websiteDomainV2 props)
      (if d = props.primaryDomain then [] else [props.websiteSubdomain]),
      r ∈ buildV2 props :=
    fun _ hr => mem_buildV2_of_mem_entry hd (mem_entry_of_redirect hr)
  refine ⟨key _ ?_, key _ ?_, key _ ?_, key _ ?_⟩ <;>
    by_cases hdp : d = props.primaryDomain <;>
      simp [createDomainRedirectInfra, alternateNamesV2, hdp]

theorem altRecord_mem {props : PersonalWebsiteStackPropsV2} {d : String}
    {recs : DomainRecords} (hd : (d, recs) ∈ props.domainConfigs)
    (hne : d ≠ props.primaryDomain) :
    Resource.aRecord (domainJoin [some props.websiteSubdomain, some d] ++ "-to-cf") d
      (domainJoin [some props.websiteSubdomain, some d]) (d ++ "-dist") ∈ buildV2 props := by
  apply mem_buildV2_of_mem_entry hd
  apply mem_entry_of_redirect
  rw [if_neg hne]
  simp [createDomainRedirectInfra]

/-! ### Distinctness facts forced by construct-id uniqueness -/

theorem wd_ne_key {props : PersonalWebsiteStackPropsV2} {precs : DomainRecords}
    (hnd : ((buildV2 props).map Resource.rid).Nodup)
    (hp : (props.primaryDomain, precs) ∈ props.domainConfigs)
    {d : String} {recs : DomainRecords} (hd : (d, recs) ∈ props.domainConfigs) :
    websiteDomainV2 props ≠ d := by
  intro he
  have h1 := (hosting_resources_mem hp).1
  have h2 := (redirect_resources_mem hd).1
  have heq := rid_inj_of_nodup hnd _ h1 _ h2
    (by simp [contentDistribution, redirectDistribution, Resource.rid, he])
  simp [contentDistribution, redirectDistribution] at heq

theorem wd_ne_altname {props : PersonalWebsiteStackPropsV2} {precs : DomainRecords}
    (hnd : ((buildV2 props).map Resource.rid).Nodup)
    (hp : (props.primaryDomain, precs) ∈ props.domainConfigs)
    {d : String} {recs : DomainRecords} (hd : (d, recs) ∈ props.domainConfigs)
    (hne : d ≠ props.primaryDomain) :
    websiteDomainV2 props ≠ domainJoin [some props.websiteSubdomain, some d] := by
  intro he
  have h1 := (hosting_resources_mem hp).2.2
  have h2 := altRecord_mem hd hne
  have heq := rid_inj_of_nodup hnd _ h1 _ h2 (by simp [Resource.rid, he])
  simp [Resource.aRecord.injEq] at heq
  exact hne (heq.2.1.symm)

theorem key_ne_altname {props : PersonalWebsiteStackPropsV2}
    (hnd : ((buildV2 props).map Resource.rid).Nodup)
    {e : String} {erecs : DomainRecords} (he : (e, erecs) ∈ props.domainConfigs)
    {d : String} {recs : DomainRecords} (hd : (d, recs) ∈ props.domainConfigs)
    (hne : d ≠ props.primaryDomain) (hed : e ≠ d) :
    e ≠ domainJoin [some props.websiteSubdomain, some d] := by
  intro heq
  have h1 := (redirect_resources_mem he).2.2.2
  have h2 := altRecord_mem hd hne
  have := rid_inj_of_nodup hnd _ h1 _ h2 (by simp [Resource.rid, heq])
  simp [Resource.aRecord.injEq] at this
  exact hed this.2.1

theorem altname_ne_altname {props : PersonalWebsiteStackPropsV2}
    (hnd : ((buildV2 props).map Resource.rid).Nodup)
    {e : String} {erecs : DomainRecords} (he : (e, erecs) ∈ props.domainConfigs)
    (hnee : e ≠ props.primaryDomain)
    {d : String} {recs : DomainRecords} (hd : (d, recs) ∈ props.domainConfigs)
    (hne : d ≠ props.primaryDomain) (hed : e ≠ d) :
    domainJoin [some props.websiteSubdomain, some e] ≠
      domainJoin [some props.websiteSubdomain, some d] := by
  intro heq
  have h1 := altRecord_mem he hnee
  have h2 := altRecord_mem hd hne
  have := rid_inj_of_nodup hnd _ h1 _ h2 (by simp [Resource.rid, heq])
  simp [Resource.aRecord.injEq] at this
  exact hed this.2.1

theorem websiteSubdomain_ne_empty {props : PersonalWebsiteStackPropsV2} {precs : DomainRecords}
    (hnd : ((buildV2 props).map Resource.rid).Nodup)
    (hp : (props.primaryDomain, precs) ∈ props.domainConfigs) :
    props.websiteSubdomain ≠ "" := by
  intro he
  exact wd_ne_key hnd hp hp (by rw [websiteDomainV2, he, domainJoin_empty_left])

/-! ### Filter helpers for record resources -/

theorem filter_explicitRecords_eq_self (d : String) (recs : DomainRecords)
    (p : Resource → Bool)
    (hmx : ∀ i z rn v t, p (Resource.mxRecord i z rn v t) = true)
    (hcn : ∀ i z rn dn t, p (Resource.cnameRecord i z rn dn t) = true)
    (htx : ∀ i z rn v t, p (Resource.txtRecord i z rn v t) = true) :
    (explicitRecordResources d recs).filter p = explicitRecordResources d recs := by
  rw [List.filter_eq_self]
  intro r hr
  simp only [explicitRecordResources, List.mem_append, List.mem_map] at hr
  rcases hr with (⟨a, -, ha⟩ | ⟨a, -, ha⟩) | ⟨a, -, ha⟩ <;> subst ha <;>
    simp [mxRecordResource, cnameRecordResource, txtRecordResource, hmx, hcn, htx]

theorem filter_explicitRecords_eq_nil (d : String) (recs : DomainRecords)
    (p : Resource → Bool)
    (hmx : ∀ i z rn v t, p (Resource.mxRecord i z rn v t) = false)
    (hcn : ∀ i z rn dn t, p (Resource.cnameRecord i z rn dn t) = false)
    (htx : ∀ i z rn v t, p (Resource.txtRecord i z rn v t) = false) :
    (explicitRecordResources d recs).filter p = [] := by
  rw [List.filter_eq_nil_iff]
  intro r hr
  simp only [explicitRecordResources, List.mem_append, List.mem_map] at hr
  rcases hr with (⟨a, -, ha⟩ | ⟨a, -, ha⟩) | ⟨a, -, ha⟩ <;> subst ha <;>
    simp [mxRecordResource, cnameRecordResource, txtRecordResource, hmx, hcn, htx]

/-! ### Claim theorems -/

/-- C9: `domainJoin` ignores undefined and empty parts — dropping a `none`
or an empty-string part never changes the result; joining an empty subdomain
with an apex yields the bare apex (no leading dot); and joining a non-empty
subdomain `s` with a non-empty apex `d` yields `s ++ "." ++ d`. -/
theorem C9_domainJoin_ignores_empty_parts :
    (∀ l : List (Option String), domainJoin (none :: l) = domainJoin l) ∧
    (∀ l : List (Option String), domainJoin (some "" :: l) = domainJoin l) ∧
    (∀ d : String, domainJoin [some "", some d] = d) ∧
    (∀ s d : String, s ≠ "" → d ≠ "" → domainJoin [some s, some d] = s ++ "." ++ d) :=
  ⟨domainJoin_none_cons, domainJoin_some_empty_cons, domainJoin_empty_left,
    fun _ _ hs hd => domainJoin_pair hs hd⟩

/-- C9 witness: joining the non-empty subdomain `www` with the apex
`example.com` yields `www.example.com`. -/
theorem C9_domainJoin_ignores_empty_parts_witness :
    domainJoin [some "www", some "example.com"] = "www" ++ "." ++ "example.com" :=
  C9_domainJoin_ignores_empty_parts.2.2.2 "www" "example.com" (by decide) (by decide)

/-- C10: the `AddressRecords` construct creates both an A and an AAAA record
when `ipVersion` is omitted or `'dual-stack'`, only an A record for
`'ipv4-only'`, only an AAAA record for `'ipv6-only'`; every record it creates
uses the given zone, domain name and target. -/
theorem C10_addressRecords_ipVersion :
    ∀ zone domainName target : String,
      addressRecords ⟨zone, domainName, target, none⟩ =
        [Resource.aRecord "a" zone domainName target,
         Resource.aaaaRecord "aaaa" zone domainName target] ∧
      addressRecords ⟨zone, domainName, target, some IpVersion.dualStack⟩ =
        [Resource.aRecord "a" zone domainName target,
         Resource.aaaaRecord "aaaa" zone domainName target] ∧
      addressRecords ⟨zone, domainName, target, some IpVersion.ipv4Only⟩ =
        [Resource.aRecord "a" zone domainName target] ∧
      addressRecords ⟨zone, domainName, target, some IpVersion.ipv6Only⟩ =
        [Resource.aaaaRecord "aaaa" zone domainName target] :=
  fun _ _ _ => ⟨rfl, rfl, rfl, rfl⟩

/-- C1 counterexample: the claim says a configuration with an MX record at
subdomain `www` on the primary apex must fail with `ConfigConflict`; in the
code, synthesis of exactly that configuration succeeds and emits a plan. -/
theorem C1_counterexample_reserved_subdomain_accepted :
    (buildV2Checked reservedMxProps).isOk = true := rfl

/-- C1 amended: the resolver performs no reserved-subdomain check — a
configuration with an MX record at subdomain `www` on the primary apex is
accepted; the plan contains the configured MX record verbatim (construct id
`www.chriswlucas.com-mx`) alongside the website alias record for the same
FQDN `www.chriswlucas.com`. -/
theorem C1_amended_reserved_subdomain_record_emitted :
    buildV2Checked reservedMxProps = .ok (buildV2 reservedMxProps) ∧
    Resource.mxRecord "www.chriswlucas.com-mx" "chriswlucas.com" (some "www")
      iCloudMxValues (some 86400) ∈ buildV2 reservedMxProps ∧
    Resource.aRecord "www.chriswlucas.com-to-cf" "chriswlucas.com"
      "www.chriswlucas.com" "www.chriswlucas.com-dist" ∈ buildV2 reservedMxProps := by
  refine ⟨rfl, ?_, ?_⟩ <;> decide

/-- C5: a first-version configuration listing the same apex domain twice
fails synchronously — synthesis aborts with the duplicate-construct-id error
naming a domain that occurs (at least) twice among the apex domains, and no
plan is emitted. -/
theorem C5_duplicate_domain_fails (props : PersonalWebsiteStackPropsV1)
    (hdup : ¬ (apexDomainsV1 props).Nodup) :
    ∃ d, 2 ≤ (apexDomainsV1 props).count d ∧
      buildV1Checked props = .error (.duplicateConstructId d) := by
  obtain ⟨d, hfd⟩ : ∃ d, firstDupAux [] (apexDomainsV1 props) = some d := by
    cases h : firstDupAux [] (apexDomainsV1 props) with
    | some d => exact ⟨d, rfl⟩
    | none => exact absurd ((firstDupAux_eq_none_iff _ _).mp h).1 hdup
  refine ⟨d, ?_, ?_⟩
  · rcases firstDupAux_some_count _ _ _ hfd with ⟨hmem, -⟩ | h2
    · simp at hmem
    · exact h2
  · have hids : (buildV1 props).map Resource.rid
        = apexDomainsV1 props ++ (buildV1Rest props).map Resource.rid := by
      rw [buildV1, List.map_append, List.map_map]
      rfl
    have hsome : firstDupAux [] ((buildV1 props).map Resource.rid) = some d := by
      rw [hids]
      exact firstDupAux_append_of_some _ _ _ _ hfd
    simp [buildV1Checked, checkConstructIds, hsome]

/-- C5 witness: the configuration listing `chriswlucas.com` both as primary
and among the secondaries fails with the duplicate-domain error. -/
theorem C5_duplicate_domain_fails_witness :
    ∃ d, 2 ≤ (apexDomainsV1 duplicateDomainProps).count d ∧
      buildV1Checked duplicateDomainProps = .error (.duplicateConstructId d) :=
  C5_duplicate_domain_fails duplicateDomainProps (by decide)

/-- The physical resource ids of the `AwsCustomResource`s of a plan. -/
def customResourcePhysicalIds (rs : List Resource) : List String :=
  rs.filterMap (fun r => match r with
    | .customResource _ p => some p
    | _ => none)

/-- C3 counterexample: resolving the identical configuration at clock values
0 and 1 produces structurally different plans — the third version's
`createFromEmailInfra` embeds `Date.now().toString()` as the physical
resource id of the mail-archive attachment, a dependence on something
outside the input. -/
theorem C3_counterexample_clock_dependence :
    buildV3 prodPropsV3 0 ≠ buildV3 prodPropsV3 1 := by
  intro h
  have hids := congrArg customResourcePhysicalIds h
  revert hids
  decide

/-- C3 amended: plan construction is deterministic given the configuration
input and the clock reading at construction time; the clock influences only
the physical resource id of the mail-archive-attachment `AwsCustomResource` —
every other emitted resource is identical across clock values (name-for-name
and value-for-value). -/
theorem C3_amended_deterministic_except_clock_resource
    (props : PersonalWebsiteStackPropsV3) (t1 t2 : Nat) :
    (buildV3 props t1).filter (fun r => !r.isCustomResource) =
      (buildV3 props t2).filter (fun r => !r.isCustomResource) := by
  have hrec : (explicitRecordResources props.domain props.records).filter
      (fun r => !r.isCustomResource) = explicitRecordResources props.domain props.records :=
    filter_explicitRecords_eq_self _ _ _
      (fun _ _ _ _ _ => rfl) (fun _ _ _ _ _ => rfl) (fun _ _ _ _ _ => rfl)
  simp [buildV3, createFromEmailInfraV3, createWebHostingInfra,
    createDomainRedirectInfra, createSesSqsDestination, dnsManagementIamUser,
    contentDistribution, redirectDistribution, contentCertificate, redirectCertificate,
    Resource.isCustomResource, List.filter_append, hrec]

/-- C8: every explicitly configured MX, TXT or CNAME record of an apex is
carried into the emitted plan verbatim — in exactly that apex's zone, with
the configured record name, values and TTL unchanged — and its construct id
is the configured subdomain joined to the apex (`domainJoin`), which is the
record's effective FQDN under Route53's zone-relative name resolution. -/
theorem C8_explicit_records_verbatim (props : PersonalWebsiteStackPropsV2)
    (plan : List Resource) (hok : buildV2Checked props = .ok plan)
    (d : String) (recs : DomainRecords) (hd : (d, recs) ∈ props.domainConfigs) :
    (∀ mx ∈ recs.MxRecords,
        Resource.mxRecord (domainJoin [mx.recordName, some d] ++ "-mx") d
          mx.recordName mx.values mx.ttl ∈ plan) ∧
    (∀ cn ∈ recs.CnameRecords,
        Resource.cnameRecord (domainJoin [cn.recordName, some d] ++ "-cname") d
          cn.recordName cn.domainName cn.ttl ∈ plan) ∧
    (∀ tx ∈ recs.TxtRecords,
        Resource.txtRecord (domainJoin [tx.recordName, some d] ++ "-txt") d
          tx.recordName tx.values tx.ttl ∈ plan) := by
  obtain ⟨rfl, -⟩ := buildV2Checked_ok hok
  refine ⟨fun mx hmx => ?_, fun cn hcn => ?_, fun tx htx => ?_⟩ <;>
  · apply mem_buildV2_of_mem_entry hd
    apply mem_entry_of_records
    simp only [explicitRecordResources, List.mem_append, List.mem_map,
      mxRecordResource, cnameRecordResource, txtRecordResource]
    first
      | exact Or.inl (Or.inl ⟨mx, hmx, rfl⟩)
      | exact Or.inl (Or.inr ⟨cn, hcn, rfl⟩)
      | exact Or.inr ⟨tx, htx, rfl⟩

/-- C8 witness: the deployed configuration's apex MX record for
`chriswlucas.com` (the iCloud MX values with a one-day TTL, no subdomain)
appears verbatim in the emitted plan, in the `chriswlucas.com` zone. -/
theorem C8_explicit_records_verbatim_witness :
    Resource.mxRecord (domainJoin [none, some "chriswlucas.com"] ++ "-mx")
      "chriswlucas.com" none iCloudMxValues (some 86400) ∈ buildV2 prodProps :=
  (C8_explicit_records_verbatim prodProps (buildV2 prodProps) rfl
      "chriswlucas.com" prodPrimaryRecords (by decide)).1
    { values := iCloudMxValues, ttl := some 86400 } (by decide)

/-- C4: for every secondary apex in an emitted plan, the redirect bucket
fronted by the apex's distribution targets exactly `websiteDomain`; the
redirect distribution's names are the apex and the website subdomain joined
to the apex, and both alias (via their A records) to that one distribution;
and `websiteDomain` is never a secondary domain — in particular never the
secondary itself. -/
theorem C4_secondary_redirect_target (props : PersonalWebsiteStackPropsV2)
    (plan : List Resource) (hok : buildV2Checked props = .ok plan)
    (precs : DomainRecords) (hp : (props.primaryDomain, precs) ∈ props.domainConfigs)
    (d : String) (recs : DomainRecords) (hd : (d, recs) ∈ props.domainConfigs)
    (hne : d ≠ props.primaryDomain) :
    Resource.bucket (d ++ "-redirect-bucket") d (some (websiteDomainV2 props)) ∈ plan ∧
    redirectDistribution d [domainJoin [some props.websiteSubdomain, some d]] ∈ plan ∧
    Resource.aRecord (d ++ "-to-cf") d d (d ++ "-dist") ∈ plan ∧
    Resource.aRecord (domainJoin [some props.websiteSubdomain, some d] ++ "-to-cf") d
      (domainJoin [some props.websiteSubdomain, some d]) (d ++ "-dist") ∈ plan ∧
    (∀ e erecs, (e, erecs) ∈ props.domainConfigs → e ≠ props.primaryDomain →
      websiteDomainV2 props ≠ e) := by
  obtain ⟨rfl, hnd⟩ := buildV2Checked_ok hok
  have halt : alternateNamesV2 props d = [domainJoin [some props.websiteSubdomain, some d]] := by
    rw [alternateNamesV2, if_neg hne]
  obtain ⟨hdist, -, hbucket, hapex⟩ := redirect_resources_mem hd
  refine ⟨hbucket, halt ▸ hdist, hapex, altRecord_mem hd hne, ?_⟩
  intro e erecs he _
  exact wd_ne_key hnd hp he

/-- C4 witness: in the deployed configuration, the secondary apex
`chriswlucas.org`'s redirect bucket targets `websiteDomain`
(`www.chriswlucas.com`). -/
theorem C4_secondary_redirect_target_witness :
    Resource.bucket ("chriswlucas.org" ++ "-redirect-bucket") "chriswlucas.org"
      (some (websiteDomainV2 prodProps)) ∈ buildV2 prodProps :=
  (C4_secondary_redirect_target prodProps (buildV2 prodProps) rfl
      prodPrimaryRecords (by decide) "chriswlucas.org"
      { TxtRecords := [{ values := ["google-site-verification=eum67Zs46nv_NLwhZ0PV6aPdTIoJIv2cjnrd3t6VO5o"], ttl := some 3600 }] }
      (by decide) (by decide)).1

/-- C7: in every emitted plan whose configuration lists the primary apex
(with a syntactically valid, hence non-empty, primary domain), the resolver
computes `websiteDomain` as websiteSubdomain `.` primaryDomain; the plan
contains exactly one A-alias record named `websiteDomain` — in the primary
apex's zone, pointing at the content distribution — plus a redirect
distribution for the bare primary apex whose redirect bucket targets
`websiteDomain`. -/
theorem C7_websiteDomain_alias_and_apex_redirect (props : PersonalWebsiteStackPropsV2)
    (plan : List Resource) (hok : buildV2Checked props = .ok plan)
    (precs : DomainRecords) (hp : (props.primaryDomain, precs) ∈ props.domainConfigs)
    (hpd : props.primaryDomain ≠ "") :
    websiteDomainV2 props = props.websiteSubdomain ++ "." ++ props.primaryDomain ∧
    Resource.aRecord (websiteDomainV2 props ++ "-to-cf") props.primaryDomain
      (websiteDomainV2 props) (websiteDomainV2 props ++ "-dist") ∈ plan ∧
    (∀ i z n t, Resource.aRecord i z n t ∈ plan → n = websiteDomainV2 props →
      Resource.aRecord i z n t =
        Resource.aRecord (websiteDomainV2 props ++ "-to-cf") props.primaryDomain
          (websiteDomainV2 props) (websiteDomainV2 props ++ "-dist")) ∧
    contentDistribution (websiteDomainV2 props) ∈ plan ∧
    redirectDistribution props.primaryDomain [] ∈ plan ∧
    Resource.bucket (props.primaryDomain ++ "-redirect-bucket") props.primaryDomain
      (some (websiteDomainV2 props)) ∈ plan := by
  obtain ⟨rfl, hnd⟩ := buildV2Checked_ok hok
  have hws : props.websiteSubdomain ≠ "" := websiteSubdomain_ne_empty hnd hp
  obtain ⟨hcdist, -, halias⟩ := hosting_resources_mem hp
  obtain ⟨hrdist, -, hbucket, -⟩ := redirect_resources_mem hp
  have halt : alternateNamesV2 props props.primaryDomain = [] := by
    rw [alternateNamesV2, if_pos rfl]
  refine ⟨domainJoin_pair hws hpd, halias, ?_, hcdist, halt ▸ hrdist, hbucket⟩
  intro i z n t hmem hn
  rcases aRecord_mem_buildV2 hmem with ⟨-, hi, hz, hn', ht⟩ | ⟨recs, hkey, hi, hz, ht⟩ |
    ⟨d, recs, hd, hdp, hjoin, hi, hz, ht⟩
  · rw [hi, hz, hn', ht]
  · rw [hn] at hkey
    exact absurd rfl (wd_ne_key hnd hp hkey)
  · rw [hn] at hjoin
    exact absurd hjoin (wd_ne_altname hnd hp hd hdp)

/-- C7 witness: the deployed configuration's website domain is
`www.chriswlucas.com`, the join of `www` and `chriswlucas.com`. -/
theorem C7_websiteDomain_alias_and_apex_redirect_witness :
    websiteDomainV2 prodProps = "www" ++ "." ++ "chriswlucas.com" :=
  (C7_websiteDomain_alias_and_apex_redirect prodProps (buildV2 prodProps) rfl
      prodPrimaryRecords (by decide) (by decide)).1

/-- C6: a configuration with zero secondary domains produces exactly one
content distribution (for `websiteDomain`) and exactly one redirect
distribution (for the bare primary apex), and no other distribution: in the
second version this is the configuration whose `domainConfigs` holds only the
primary apex, and in the third (single-domain) version it is every
configuration. -/
theorem C6_zero_secondaries_distributions :
    (∀ (props : PersonalWebsiteStackPropsV2) (plan : List Resource) (recs : DomainRecords),
      props.domainConfigs = [(props.primaryDomain, recs)] →
      buildV2Checked props = .ok plan →
      plan.filter Resource.isDistribution =
        [contentDistribution (websiteDomainV2 props),
         redirectDistribution props.primaryDomain []]) ∧
    (∀ (props : PersonalWebsiteStackPropsV3) (now : Nat),
      (buildV3 props now).filter Resource.isDistribution =
        [contentDistribution (websiteDomainV3 props),
         redirectDistribution props.domain []]) := by
  constructor
  · intro props plan recs hconf hok
    obtain ⟨rfl, -⟩ := buildV2Checked_ok hok
    have hrec : (explicitRecordResources props.primaryDomain recs).filter
        Resource.isDistribution = [] :=
      filter_explicitRecords_eq_nil _ _ _
        (fun _ _ _ _ _ => rfl) (fun _ _ _ _ _ => rfl) (fun _ _ _ _ _ => rfl)
    simp [buildV2, globalsV2, hconf, entryResourcesV2, createWebHostingInfra,
      createDomainRedirectInfra, createFromEmailInfraV2, contentDistribution,
      redirectDistribution, contentCertificate, redirectCertificate,
      Resource.isDistribution, List.filter_append, hrec]
  · intro props now
    have hrec : (explicitRecordResources props.domain props.records).filter
        Resource.isDistribution = [] :=
      filter_explicitRecords_eq_nil _ _ _
        (fun _ _ _ _ _ => rfl) (fun _ _ _ _ _ => rfl) (fun _ _ _ _ _ => rfl)
    simp [buildV3, createWebHostingInfra, createDomainRedirectInfra,
      createFromEmailInfraV3, createSesSqsDestination, dnsManagementIamUser,
      contentDistribution, redirectDistribution, contentCertificate, redirectCertificate,
      Resource.isDistribution, List.filter_append, hrec]

/-- C6 witness: the single-domain configuration (only `chriswlucas.com`)
yields exactly the content distribution and the apex redirect distribution. -/
theorem C6_zero_secondaries_distributions_witness :
    (buildV2 singleDomainProps).filter Resource.isDistribution =
      [contentDistribution (websiteDomainV2 singleDomainProps),
       redirectDistribution singleDomainProps.primaryDomain []] :=
  C6_zero_secondaries_distributions.1 singleDomainProps (buildV2 singleDomainProps)
    prodPrimaryRecords rfl rfl

theorem eq_distribution_of_isDistribution {r : Resource} (h : r.isDistribution = true) :
    ∃ i c dns cid fn ob, r = Resource.distribution i c dns cid fn ob := by
  cases r <;> first
    | exact ⟨_, _, _, _, _, _, rfl⟩
    | simp [Resource.isDistribution] at h

/-- In an emitted plan, a distribution together with the certificate its
`certificate` property references is either the content pair for
`websiteDomain` or the redirect pair of one configured apex. -/
theorem dist_cert_scope {props : PersonalWebsiteStackPropsV2}
    (hnd : ((buildV2 props).map Resource.rid).Nodup)
    {precs : DomainRecords} (hp : (props.primaryDomain, precs) ∈ props.domainConfigs)
    {dist cert : Resource} (hdist : dist ∈ buildV2 props) (hd : dist.isDistribution = true)
    (hcert : cert ∈ buildV2 props) (hid : dist.certificateIdOf = some cert.rid) :
    (dist = contentDistribution (websiteDomainV2 props) ∧
      cert = contentCertificate (websiteDomainV2 props)) ∨
    (∃ d recs, (d, recs) ∈ props.domainConfigs ∧
      dist = redirectDistribution d (alternateNamesV2 props d) ∧
      cert = redirectCertificate d (alternateNamesV2 props d)) := by
  obtain ⟨i, c, dns, cid, fn, ob, rfl⟩ := eq_distribution_of_isDistribution hd
  have hrid : cert.rid = cid := by
    simpa [Resource.certificateIdOf] using hid.symm
  rcases dist_mem_buildV2 hdist with ⟨-, hi, hc, hdns, hcid, hfn, hob⟩ |
    ⟨e, recs, he, hi, hc, hdns, hcid, hfn, hob⟩
  · left
    have hccert := (hosting_resources_mem hp).2.1
    have hcert_eq : cert = contentCertificate (websiteDomainV2 props) := by
      apply rid_inj_of_nodup hnd _ hcert _ hccert
      rw [hrid, hcid]
      rfl
    subst hi hc hdns hcid hfn hob
    exact ⟨rfl, hcert_eq⟩
  · right
    refine ⟨e, recs, he, ?_, ?_⟩
    · subst hi hc hdns hcid hfn hob
      rfl
    · apply rid_inj_of_nodup hnd _ hcert _ (redirect_resources_mem he).2.1
      rw [hrid, hcid]
      rfl

/-- C2: in every emitted plan (with the primary apex configured), the
certificate scopes partition the served FQDNs — the content distribution's
certificate covers exactly `{websiteDomain}`, each redirect distribution's
certificate covers exactly its apex plus its alternate names, and no FQDN is
covered by the certificates of two different distributions. -/
theorem C2_certificate_scopes_partition (props : PersonalWebsiteStackPropsV2)
    (plan : List Resource) (hok : buildV2Checked props = .ok plan)
    (precs : DomainRecords) (hp : (props.primaryDomain, precs) ∈ props.domainConfigs) :
    contentCertificate (websiteDomainV2 props) ∈ plan ∧
    Resource.coveredNames (contentCertificate (websiteDomainV2 props)) =
      [websiteDomainV2 props] ∧
    (∀ d recs, (d, recs) ∈ props.domainConfigs →
      redirectCertificate d (alternateNamesV2 props d) ∈ plan ∧
      Resource.coveredNames (redirectCertificate d (alternateNamesV2 props d)) =
        d :: alternateNamesV2 props d) ∧
    (∀ dist1 dist2 cert1 cert2 : Resource,
      dist1 ∈ plan → dist2 ∈ plan →
      dist1.isDistribution = true → dist2.isDistribution = true → dist1 ≠ dist2 →
      cert1 ∈ plan → cert2 ∈ plan →
      dist1.certificateIdOf = some cert1.rid → dist2.certificateIdOf = some cert2.rid →
      ∀ fqdn, fqdn ∈ cert1.coveredNames → fqdn ∈ cert2.coveredNames → False) := by
  obtain ⟨rfl, hnd⟩ := buildV2Checked_ok hok
  refine ⟨(hosting_resources_mem hp).2.1, rfl,
    fun d recs hd => ⟨(redirect_resources_mem hd).2.1, rfl⟩, ?_⟩
  intro dist1 dist2 cert1 cert2 h1 h2 hisd1 hisd2 hne hc1 hc2 hid1 hid2 fqdn hf1 hf2
  have hscope1 := dist_cert_scope hnd hp h1 hisd1 hc1 hid1
  have hscope2 := dist_cert_scope hnd hp h2 hisd2 hc2 hid2
  have keyscope : ∀ (e : String) (erecs : DomainRecords),
      (e, erecs) ∈ props.domainConfigs →
      fqdn ∈ (redirectCertificate e (alternateNamesV2 props e)).coveredNames →
      fqdn = e ∨ (e ≠ props.primaryDomain ∧
        fqdn = domainJoin [some props.websiteSubdomain, some e]) := by
    intro e erecs he hf
    by_cases hep : e = props.primaryDomain
    · left
      simpa [redirectCertificate, Resource.coveredNames, alternateNamesV2, hep] using hf
    · rcases (by simpa [redirectCertificate, Resource.coveredNames, alternateNamesV2, hep]
          using hf : fqdn = e ∨ fqdn = domainJoin [some props.websiteSubdomain, some e]) with
        hfe | hfj
      · exact Or.inl hfe
      · exact Or.inr ⟨hep, hfj⟩
  rcases hscope1 with ⟨hD1, hK1⟩ | ⟨e, erecs, he, hD1, hK1⟩ <;>
    rcases hscope2 with ⟨hD2, hK2⟩ | ⟨d, drecs, hd, hD2, hK2⟩
  · exact hne (hD1.trans hD2.symm)
  · subst hK1 hK2
    have hwd : fqdn = websiteDomainV2 props := by
      simpa [contentCertificate, Resource.coveredNames] using hf1
    rcases keyscope d drecs hd hf2 with hfd | ⟨hdp, hfj⟩
    · exact wd_ne_key hnd hp hd (hwd ▸ hfd)
    · exact wd_ne_altname hnd hp hd hdp (hwd ▸ hfj)
  · subst hK1 hK2
    have hwd : fqdn = websiteDomainV2 props := by
      simpa [contentCertificate, Resource.coveredNames] using hf2
    rcases keyscope e erecs he hf1 with hfe | ⟨hep, hfj⟩
    · exact wd_ne_key hnd hp he (hwd ▸ hfe)
    · exact wd_ne_altname hnd hp he hep (hwd ▸ hfj)
  · have hed : e ≠ d := by
      rintro rfl
      exact hne ((hD1.trans hD2.symm))
    subst hK1 hK2
    rcases keyscope e erecs he hf1 with hfe | ⟨hep, hfje⟩ <;>
      rcases keyscope d drecs hd hf2 with hfd | ⟨hdp, hfjd⟩
    · exact hed (hfe.symm.trans hfd)
    · exact key_ne_altname hnd he hd hdp hed (hfe.symm.trans hfjd)
    · exact key_ne_altname hnd hd he hep (Ne.symm hed) (hfd.symm.trans hfje)
    · exact altname_ne_altname hnd he hep hd hdp hed (hfje.symm.trans hfjd)

/-- C2 witness: the deployed configuration's content certificate (for
`www.chriswlucas.com`, no alternative names) is in the emitted plan. -/
theorem C2_certificate_scopes_partition_witness :
    contentCertificate (websiteDomainV2 prodProps) ∈ buildV2 prodProps :=
  (C2_certificate_scopes_partition prodProps (buildV2 prodProps) rfl
      prodPrimaryRecords (by decide)).1
